import Mathlib

/-!
# ChatBot: the Gmail synchronisation function of `index.js`

A shallow embedding of the two functions of `src/index.js`:

* `validateEnvVars` (lines 7-20), the start-up check of the four secrets;
* `checkGmailAndProcess` (lines 40-81), one synchronisation pass.

The pass talks to three collaborators: the Firestore document
`function_config/gmail_sync`, the Gmail API (`users.getProfile`,
`users.history.list`) and the HTTP response object. Their behaviour during
one pass is a value of `World`; the pass returns the ordered list of the
calls it made (`Outcome.trace`) and the document the store holds afterwards
(`Outcome.doc`). A rejected promise is a `JSError`, caught by the single
`catch` block of the function.
-/

namespace ChatBot

/-! ## JavaScript values -/

/-- Truthiness of a value that is `undefined`/`null` (here `none`) or a string:
only the non-empty string is truthy. -/
def truthy : Option String → Bool
  | none => false
  | some s => s != ""

/-- An error object as the `catch` block sees it. The code reads `message`
only; `code` is the HTTP status the Google client libraries attach (404 is
what `users.history.list` answers for a start marker that is out of date). -/
structure JSError where
  message : String
  code : Option Nat
deriving DecidableEq, Repr

/-! ## validateEnvVars (lines 7-20) -/

/-- The process environment, `process.env`: a variable is unset or a string. -/
abbrev Env := String → Option String

/-- The array `requiredEnvVars` of lines 8-13. -/
def requiredEnvVars : List String :=
  ["GENAI_API_KEY", "OAUTH_CLIENT_ID", "OAUTH_CLIENT_SECRET", "GMAIL_REFRESH_TOKEN"]

/-- Line 14: `requiredEnvVars.filter(v => !process.env[v])`. -/
def missingVars (env : Env) : List String :=
  requiredEnvVars.filter (fun v => !truthy (env v))

/-- Lines 7-20. The function throws an `Error` (built with a message only)
or returns after logging one line; the value returned here is the list of
lines written with `console.log`. -/
def validateEnvVars (env : Env) : Except JSError (List String) :=
  let missingVars := missingVars env
  if missingVars.length > 0 then
    .error
      { message :=
          "FATAL STARTUP ERROR: Missing required environment variables: "
            ++ ", ".intercalate missingVars
        code := none }
  else
    .ok ["All environment variables are present."]

/-- A variable is missing when it is unset or set to the empty string. -/
def IsMissing (env : Env) (v : String) : Prop :=
  env v = none ∨ env v = some ""

/-! ## The collaborators of a pass -/

/-- The document `function_config/gmail_sync`. Its one field is written by
line 55 only, with the string `profile.data.historyId`; read back it is that
string, or nothing when the field is missing. -/
structure ConfigDoc where
  lastHistoryId : Option String
deriving DecidableEq, Repr

/-- The argument of `gmail.users.history.list`. The code sets the first
three fields (lines 62-64); `pageToken` is the request's continuation token,
which the code never sets. -/
structure HistoryListParams where
  userId : String
  startHistoryId : String
  historyTypes : List String
  pageToken : Option String
deriving DecidableEq, Repr

/-- One record of the `history` array: its id and the identifiers of the
messages its `messagesAdded` entries name. -/
structure HistoryRecord where
  id : String
  messagesAdded : List String
deriving DecidableEq, Repr

/-- The body `historyRes.data` of a history-list answer. `history` is absent
when the page has no record; `historyId` is the mailbox's latest marker. -/
structure HistoryData where
  history : Option (List HistoryRecord)
  nextPageToken : Option String
  historyId : String
deriving DecidableEq, Repr

/-- What the collaborators do during one pass.

* `doc`: the document the store holds when the pass starts (`none`: it does
  not exist);
* `getFails`: the error `configRef.get()` rejects with, if it does;
* `setFails`: the error `configRef.set(...)` rejects with, if it does;
* `getProfile userId`: `profile.data.historyId`, or the rejection;
* `historyList params`: `historyRes.data`, or the rejection. -/
structure World where
  doc : Option ConfigDoc
  getFails : Option JSError
  setFails : Option JSError
  getProfile : String → Except JSError String
  historyList : HistoryListParams → Except JSError HistoryData

/-- A call the pass makes on a collaborator, in program order.
`processMessage` stands for a call handing one message identifier to the
generative-AI client created on line 27; `checkGmailAndProcess` contains no
such call. -/
inductive Effect where
  | consoleLog (line : String)
  | consoleError (label message : String)
  | firestoreGet (collection docId : String)
  | firestoreSet (collection docId lastHistoryId : String)
  | getProfile (userId : String)
  | historyList (params : HistoryListParams)
  | processMessage (messageId : String)
  | respond (status : Nat) (body : String)
deriving DecidableEq, Repr

/-- The result of a pass: the calls made and the document stored afterwards. -/
structure Outcome where
  trace : List Effect
  doc : Option ConfigDoc
deriving DecidableEq, Repr

/-! ## Reading a trace -/

/-- The responses sent, as (status, body). -/
def responses (t : List Effect) : List (Nat × String) :=
  t.filterMap fun
    | .respond status body => some (status, body)
    | _ => none

/-- The user ids of the `getProfile` calls. -/
def getProfileCalls (t : List Effect) : List String :=
  t.filterMap fun
    | .getProfile userId => some userId
    | _ => none

/-- The arguments of the history-list calls. -/
def historyListCalls (t : List Effect) : List HistoryListParams :=
  t.filterMap fun
    | .historyList params => some params
    | _ => none

/-- The values written to the field `lastHistoryId`. -/
def firestoreSets (t : List Effect) : List String :=
  t.filterMap fun
    | .firestoreSet _ _ lastHistoryId => some lastHistoryId
    | _ => none

/-- The message identifiers handed to the downstream processor. -/
def dispatches (t : List Effect) : List String :=
  t.filterMap fun
    | .processMessage messageId => some messageId
    | _ => none

/-- The messages written with `console.error`. -/
def consoleErrors (t : List Effect) : List String :=
  t.filterMap fun
    | .consoleError _ message => some message
    | _ => none

/-! ## checkGmailAndProcess (lines 40-81) -/

/-- Line 43. -/
def CONFIG_COLLECTION : String := "function_config"

/-- Line 44. -/
def CONFIG_DOC_ID : String := "gmail_sync"

/-- Line 46. -/
def GMAIL_USER_ID : String := "me"

/-- Lines 77-80, the `catch` block, entered after the calls `t` with the
store holding `doc`. -/
def catchBlock (t : List Effect) (doc : Option ConfigDoc) (error : JSError) : Outcome :=
  { trace := t ++
      [ .consoleError "An error occurred:" error.message,
        .respond 500 ("An error occurred: " ++ error.message) ]
    doc := doc }

/-- Line 50: `configDoc.exists ? configDoc.data().lastHistoryId : null`. -/
def lastHistoryIdOf (configDoc : Option ConfigDoc) : Option String :=
  match configDoc with
  | some d => d.lastHistoryId
  | none => none

/-- Lines 61-65: the argument of the history-list call. -/
def historyParams (lastHistoryId : String) : HistoryListParams :=
  { userId := GMAIL_USER_ID
    startHistoryId := lastHistoryId
    historyTypes := ["messageAdded"]
    pageToken := none }

/-- Lines 53-58, the branch taken when `lastHistoryId` is falsy. A write
that succeeds replaces the document by `{ lastHistoryId: historyId }`; a
rejected call leaves the store as it was. -/
def bootstrap (w : World) (t0 : List Effect) : Outcome :=
  let t1 := t0 ++
    [ .consoleLog "No lastHistoryId found. Setting initial history marker.",
      .getProfile GMAIL_USER_ID ]
  match w.getProfile GMAIL_USER_ID with
  | .error error => catchBlock t1 w.doc error
  | .ok historyId =>
    let t2 := t1 ++ [.firestoreSet CONFIG_COLLECTION CONFIG_DOC_ID historyId]
    match w.setFails with
    | some error => catchBlock t2 w.doc error
    | none =>
      { trace := t2 ++
          [ .consoleLog ("Initial historyId set to " ++ historyId ++ "."),
            .respond 200 "Initial run complete. History marker set." ]
        doc := some { lastHistoryId := some historyId } }

/-- Lines 61-75, the branch taken when `lastHistoryId` is truthy. Between
the test of line 67 and the response of line 75 the source holds a comment
and no statement. -/
def fetchDelta (w : World) (t0 : List Effect) (lastHistoryId : String) : Outcome :=
  let t1 := t0 ++ [.historyList (historyParams lastHistoryId)]
  match w.historyList (historyParams lastHistoryId) with
  | .error error => catchBlock t1 w.doc error
  | .ok data =>
    match data.history with
    | none =>
      { trace := t1 ++
          [ .consoleLog "No new history found.",
            .respond 200 "No new emails." ]
        doc := w.doc }
    | some _ =>
      { trace := t1 ++ [.respond 200 "Email check complete."]
        doc := w.doc }

/-- Lines 42-49: the calls every pass starts with, the log line and the read
of the config document. -/
def passStart : List Effect :=
  [ .consoleLog "Function started: Checking for new emails.",
    .firestoreGet CONFIG_COLLECTION CONFIG_DOC_ID ]

/-- Lines 40-81: one pass. -/
def checkGmailAndProcess (w : World) : Outcome :=
  let t0 := passStart
  match w.getFails with
  | some error => catchBlock t0 w.doc error
  | none =>
    match lastHistoryIdOf w.doc with
    | none => bootstrap w t0
    | some lastHistoryId =>
      if truthy (some lastHistoryId) then fetchDelta w t0 lastHistoryId
      else bootstrap w t0

/-! ## Several passes -/

/-- The world of the next pass: the collaborators behave as before and the
store holds what the pass left. -/
def nextWorld (w : World) (o : Outcome) : World :=
  { w with doc := o.doc }

/-- The outcomes of `n` passes run one after the other. -/
def runPasses (w : World) : Nat → List Outcome
  | 0 => []
  | n + 1 =>
    let o := checkGmailAndProcess w
    o :: runPasses (nextWorld w o) n

/-! ## Concrete collaborators -/

/-- The mailbox of the worked scenario: the marker is "100" at bootstrap, one
message `msg_1` arrives after it, and the latest marker is "105". -/
def scenarioHistory (p : HistoryListParams) : Except JSError HistoryData :=
  if p.startHistoryId = "100" then
    .ok { history := some [{ id := "101", messagesAdded := ["msg_1"] }]
          nextPageToken := none
          historyId := "105" }
  else
    .ok { history := none, nextPageToken := none, historyId := "105" }

/-- A store that does not hold the config document and a reachable mailbox
whose profile reports the marker "100". -/
def freshWorld : World :=
  { doc := none
    getFails := none
    setFails := none
    getProfile := fun _ => .ok "100"
    historyList := scenarioHistory }

/-- The store of `freshWorld` after its bootstrap: it holds the marker "100". -/
def syncedWorld : World :=
  { freshWorld with doc := some { lastHistoryId := some "100" } }

/-- As `freshWorld`, with a store that cannot be read. -/
def unreadableWorld : World :=
  { freshWorld with getFails := some { message := "14 UNAVAILABLE", code := some 14 } }

/-- As `freshWorld`, with a store that rejects the write. -/
def unwritableWorld : World :=
  { freshWorld with setFails := some { message := "14 UNAVAILABLE", code := some 14 } }

/-- An environment in which the API key alone is usable: two variables are
unset and one is set to the empty string. -/
def partialEnv : Env := fun v =>
  if v = "GENAI_API_KEY" then some "key"
  else if v = "OAUTH_CLIENT_SECRET" then some ""
  else none

/-- No document in the store and a mailbox with nothing new: the profile
reports the latest marker "105". -/
def caughtUpWorld : World :=
  { freshWorld with getProfile := fun _ => .ok "105" }

/-- A mailbox that answers in two pages: the first page holds two records
and the continuation token "page2", the page requested with that token holds
a third record and no token. -/
def pagedHistory (p : HistoryListParams) : Except JSError HistoryData :=
  if p.pageToken = some "page2" then
    .ok { history := some [{ id := "103", messagesAdded := ["msg_3"] }]
          nextPageToken := none
          historyId := "105" }
  else
    .ok { history :=
            some [ { id := "101", messagesAdded := ["msg_1"] },
                   { id := "102", messagesAdded := ["msg_2"] } ]
          nextPageToken := some "page2"
          historyId := "105" }

/-- The store holds "100" and the mailbox answers in two pages. -/
def pagedWorld : World :=
  { syncedWorld with historyList := pagedHistory }

/-- The store holds "100"; the mailbox reports no record and the latest
marker "105". -/
def quietWorld : World :=
  { syncedWorld with
    historyList := fun _ => .ok { history := none, nextPageToken := none, historyId := "105" } }

/-- The store holds "100", a marker the mailbox reports as out of date
(HTTP 404); the profile reports the marker "200". -/
def expiredWorld : World :=
  { syncedWorld with
    getProfile := fun _ => .ok "200"
    historyList := fun _ =>
      .error { message := "Requested entity was not found.", code := some 404 } }

/-- No document in the store and a mailbox whose `getProfile` times out. -/
def offlineWorld : World :=
  { freshWorld with
    getProfile := fun _ => .error { message := "timeout", code := none } }

/-! ## Notions of the specification -/

/-- The upstream reports the start marker as expired or out of range: the
history-list call is rejected with HTTP status 404. -/
def CursorExpired (e : JSError) : Prop :=
  e.code = some 404

/-- Continuation tokens are followed until none remains: whenever a
history-list call of the trace is answered with a continuation token, the
trace also holds the call that carries this token. -/
def FollowsPagination (w : World) (t : List Effect) : Prop :=
  ∀ p d token, p ∈ historyListCalls t → w.historyList p = .ok d →
    d.nextPageToken = some token →
      { p with pageToken := some token } ∈ historyListCalls t

/-- The message identifiers of a list of history records, in order. -/
def messageIds (history : List HistoryRecord) : List String :=
  history.flatMap (fun r => r.messagesAdded)

/-! ## Lemmas -/

theorem truthy_eq_false_iff (x : Option String) :
    truthy x = false ↔ x = none ∨ x = some "" := by
  cases x with
  | none => simp [truthy]
  | some s => simp [truthy]

theorem mem_missingVars (env : Env) (v : String) :
    v ∈ missingVars env ↔ v ∈ requiredEnvVars ∧ IsMissing env v := by
  unfold missingVars IsMissing
  rw [List.mem_filter, ← truthy_eq_false_iff]
  simp

theorem missingVars_eq_nil_iff (env : Env) :
    missingVars env = [] ↔ ∀ v ∈ requiredEnvVars, ¬ IsMissing env v := by
  rw [List.eq_nil_iff_forall_not_mem]
  constructor
  · intro h v hv hm
    exact h v ((mem_missingVars env v).2 ⟨hv, hm⟩)
  · intro h v hv
    exact h v ((mem_missingVars env v).1 hv).1 ((mem_missingVars env v).1 hv).2

theorem pass_of_read_error (w : World) (error : JSError) (hread : w.getFails = some error) :
    checkGmailAndProcess w = catchBlock passStart w.doc error := by
  simp [checkGmailAndProcess, hread]

theorem pass_of_falsy (w : World) (hread : w.getFails = none)
    (hfalsy : truthy (lastHistoryIdOf w.doc) = false) :
    checkGmailAndProcess w = bootstrap w passStart := by
  unfold checkGmailAndProcess
  simp only [hread]
  cases hl : lastHistoryIdOf w.doc with
  | none => rfl
  | some c =>
    rw [hl] at hfalsy
    simp [hfalsy]

theorem pass_of_cursor (w : World) (c : String) (hread : w.getFails = none)
    (hdoc : w.doc = some { lastHistoryId := some c }) (hc : c ≠ "") :
    checkGmailAndProcess w = fetchDelta w passStart c := by
  simp [checkGmailAndProcess, hread, hdoc, lastHistoryIdOf, truthy, hc]

theorem bootstrap_of_profile_error (w : World) (t0 : List Effect) (e : JSError)
    (hprofile : w.getProfile GMAIL_USER_ID = .error e) :
    bootstrap w t0 =
      catchBlock
        (t0 ++ [ .consoleLog "No lastHistoryId found. Setting initial history marker.",
                 .getProfile GMAIL_USER_ID ])
        w.doc e := by
  simp only [bootstrap, hprofile]

theorem fetchDelta_of_error (w : World) (t0 : List Effect) (c : String) (e : JSError)
    (hlist : w.historyList (historyParams c) = .error e) :
    fetchDelta w t0 c = catchBlock (t0 ++ [.historyList (historyParams c)]) w.doc e := by
  simp only [fetchDelta, hlist]

theorem fetchDelta_of_no_history (w : World) (t0 : List Effect) (c : String) (d : HistoryData)
    (hlist : w.historyList (historyParams c) = .ok d) (hnone : d.history = none) :
    fetchDelta w t0 c =
      { trace := t0 ++
          [ .historyList (historyParams c),
            .consoleLog "No new history found.",
            .respond 200 "No new emails." ]
        doc := w.doc } := by
  simp [fetchDelta, hlist, hnone]

theorem fetchDelta_of_history (w : World) (t0 : List Effect) (c : String) (d : HistoryData)
    (history : List HistoryRecord)
    (hlist : w.historyList (historyParams c) = .ok d) (hsome : d.history = some history) :
    fetchDelta w t0 c =
      { trace := t0 ++ [.historyList (historyParams c), .respond 200 "Email check complete."]
        doc := w.doc } := by
  simp [fetchDelta, hlist, hsome]

theorem fetchDelta_calls (w : World) (c : String) :
    historyListCalls (fetchDelta w passStart c).trace = [historyParams c] ∧
    getProfileCalls (fetchDelta w passStart c).trace = [] ∧
    firestoreSets (fetchDelta w passStart c).trace = [] ∧
    dispatches (fetchDelta w passStart c).trace = [] ∧
    (fetchDelta w passStart c).doc = w.doc := by
  cases hlist : w.historyList (historyParams c) with
  | error e =>
    rw [fetchDelta_of_error w _ c e hlist]
    simp [catchBlock, passStart, historyListCalls, getProfileCalls, firestoreSets, dispatches]
  | ok d =>
    cases hhist : d.history with
    | none =>
      rw [fetchDelta_of_no_history w _ c d hlist hhist]
      simp [passStart, historyListCalls, getProfileCalls, firestoreSets, dispatches]
    | some history =>
      rw [fetchDelta_of_history w _ c d history hlist hhist]
      simp [passStart, historyListCalls, getProfileCalls, firestoreSets, dispatches]

theorem runPasses_quiet (w : World) (c : String) (d : HistoryData)
    (hread : w.getFails = none) (hdoc : w.doc = some { lastHistoryId := some c })
    (hc : c ≠ "") (hlist : w.historyList (historyParams c) = .ok d)
    (hnone : d.history = none) (n : Nat) :
    ∀ o ∈ runPasses w n,
      o.trace = passStart ++
        [ .historyList (historyParams c),
          .consoleLog "No new history found.",
          .respond 200 "No new emails." ] ∧
      o.doc = some { lastHistoryId := some c } := by
  induction n generalizing w with
  | zero =>
    intro o ho
    simp [runPasses] at ho
  | succ n ih =>
    have hpass :
        checkGmailAndProcess w =
          { trace := passStart ++
              [ .historyList (historyParams c),
                .consoleLog "No new history found.",
                .respond 200 "No new emails." ]
            doc := w.doc } := by
      rw [pass_of_cursor w c hread hdoc hc, fetchDelta_of_no_history w _ c d hlist hnone]
    intro o ho
    simp only [runPasses, List.mem_cons] at ho
    rcases ho with rfl | ho
    · rw [hpass]
      exact ⟨rfl, hdoc⟩
    · have hnext : nextWorld w (checkGmailAndProcess w) = w := by
        rw [hpass]
        cases w
        rfl
      rw [hnext] at ho
      exact ih w hread hdoc hlist o ho

theorem validateEnvVars_of_nil (env : Env) (h : missingVars env = []) :
    validateEnvVars env = .ok ["All environment variables are present."] := by
  simp [validateEnvVars, h]

theorem validateEnvVars_of_ne_nil (env : Env) (h : missingVars env ≠ []) :
    validateEnvVars env = .error
      { message :=
          "FATAL STARTUP ERROR: Missing required environment variables: "
            ++ ", ".intercalate (missingVars env)
        code := none } := by
  have hpos : 0 < (missingVars env).length := List.length_pos.2 h
  simp [validateEnvVars, hpos]

theorem validateEnvVars_partialEnv :
    validateEnvVars partialEnv = .error
      { message := "FATAL STARTUP ERROR: Missing required environment variables: OAUTH_CLIENT_ID, OAUTH_CLIENT_SECRET, GMAIL_REFRESH_TOKEN"
        code := none } := by
  rfl

/-! ## Start-up validation -/

/-- C10: `validateEnvVars` throws exactly when at least one of the four
required variables is missing (unset or empty); the message it throws is the
fixed prefix followed by the names in `missingVars env` joined by ", ", and
that list holds exactly the missing names of `requiredEnvVars`, each once and
in the order of `requiredEnvVars`; when none is missing the function returns
after logging that all variables are present. -/
theorem C10_validateEnvVars_throws_iff_missing (env : Env) :
    ((∃ e, validateEnvVars env = .error e) ↔ ∃ v ∈ requiredEnvVars, IsMissing env v) ∧
    (∀ e, validateEnvVars env = .error e →
      e.message =
        "FATAL STARTUP ERROR: Missing required environment variables: "
          ++ ", ".intercalate (missingVars env)) ∧
    (∀ v, v ∈ missingVars env ↔ v ∈ requiredEnvVars ∧ IsMissing env v) ∧
    (missingVars env).Nodup ∧
    (missingVars env).Sublist requiredEnvVars ∧
    requiredEnvVars =
      ["GENAI_API_KEY", "OAUTH_CLIENT_ID", "OAUTH_CLIENT_SECRET", "GMAIL_REFRESH_TOKEN"] ∧
    (validateEnvVars env = .ok ["All environment variables are present."] ↔
      ∀ v ∈ requiredEnvVars, ¬ IsMissing env v) := by
  have hsub : (missingVars env).Sublist requiredEnvVars := List.filter_sublist _
  have hnodup : requiredEnvVars.Nodup := by decide
  have hnil := missingVars_eq_nil_iff env
  refine ⟨?_, ?_, mem_missingVars env, hnodup.sublist hsub, hsub, rfl, ?_⟩
  · constructor
    · rintro ⟨e, he⟩
      by_contra hno
      have hempty : missingVars env = [] :=
        hnil.2 (fun v hv hm => hno ⟨v, hv, hm⟩)
      rw [validateEnvVars_of_nil env hempty] at he
      cases he
    · rintro ⟨v, hv, hm⟩
      have hne : missingVars env ≠ [] :=
        List.ne_nil_of_mem ((mem_missingVars env v).2 ⟨hv, hm⟩)
      exact ⟨_, validateEnvVars_of_ne_nil env hne⟩
  · intro e he
    by_cases hempty : missingVars env = []
    · rw [validateEnvVars_of_nil env hempty] at he
      cases he
    · rw [validateEnvVars_of_ne_nil env hempty] at he
      cases he
      rfl
  · rw [← hnil]
    constructor
    · intro h
      by_contra hne
      rw [validateEnvVars_of_ne_nil env hne] at h
      cases h
    · exact validateEnvVars_of_nil env

/-! ## One pass -/

/-- C7: when the read of the config document fails, the pass calls neither
`getProfile` nor the history-list operation, writes nothing to the store,
leaves the stored document as it was and answers once, with status 500. -/
theorem C7_store_read_failure (w : World) (error : JSError)
    (hread : w.getFails = some error) :
    getProfileCalls (checkGmailAndProcess w).trace = [] ∧
    historyListCalls (checkGmailAndProcess w).trace = [] ∧
    firestoreSets (checkGmailAndProcess w).trace = [] ∧
    (checkGmailAndProcess w).doc = w.doc ∧
    responses (checkGmailAndProcess w).trace =
      [(500, "An error occurred: " ++ error.message)] := by
  rw [pass_of_read_error w error hread]
  simp [catchBlock, passStart, getProfileCalls, historyListCalls, firestoreSets, responses]

/-- C7 at `unreadableWorld`: the read is rejected with "14 UNAVAILABLE". -/
theorem C7_store_read_failure_witness :
    unreadableWorld.getFails = some { message := "14 UNAVAILABLE", code := some 14 } ∧
    getProfileCalls (checkGmailAndProcess unreadableWorld).trace = [] ∧
    historyListCalls (checkGmailAndProcess unreadableWorld).trace = [] ∧
    firestoreSets (checkGmailAndProcess unreadableWorld).trace = [] ∧
    (checkGmailAndProcess unreadableWorld).doc = unreadableWorld.doc ∧
    responses (checkGmailAndProcess unreadableWorld).trace =
      [(500, "An error occurred: " ++ "14 UNAVAILABLE")] :=
  ⟨rfl, C7_store_read_failure unreadableWorld _ rfl⟩

/-- C1, as stated, fails where the store rejects the write of the marker:
the document does not exist, the read succeeds and `getProfile` answers "100",
yet the pass answers 500 and the store holds no marker afterwards. -/
theorem C1_counterexample :
    unwritableWorld.doc = none ∧
    unwritableWorld.getFails = none ∧
    unwritableWorld.getProfile GMAIL_USER_ID = .ok "100" ∧
    (checkGmailAndProcess unwritableWorld).doc = none ∧
    responses (checkGmailAndProcess unwritableWorld).trace =
      [(500, "An error occurred: 14 UNAVAILABLE")] ∧
    ¬ ((checkGmailAndProcess unwritableWorld).doc = some { lastHistoryId := some "100" } ∧
       responses (checkGmailAndProcess unwritableWorld).trace =
        [(200, "Initial run complete. History marker set.")]) := by
  refine ⟨rfl, rfl, rfl, rfl, rfl, ?_⟩
  rintro ⟨h, -⟩
  exact absurd h (by decide)

/-- C1, amended: when the config document does not exist, the read succeeds,
`getProfile` answers the marker `m` and the store accepts the write, the pass
logs no error, calls `getProfile` exactly once, makes no history-list call
and no downstream dispatch, writes `m` once, leaves the store holding
`lastHistoryId = m` and answers once, with status 200 and the body
'Initial run complete. History marker set.'. -/
theorem C1_bootstrap (w : World) (m : String)
    (habsent : w.doc = none) (hread : w.getFails = none)
    (hprofile : w.getProfile GMAIL_USER_ID = .ok m) (hwrite : w.setFails = none) :
    consoleErrors (checkGmailAndProcess w).trace = [] ∧
    getProfileCalls (checkGmailAndProcess w).trace = [GMAIL_USER_ID] ∧
    historyListCalls (checkGmailAndProcess w).trace = [] ∧
    dispatches (checkGmailAndProcess w).trace = [] ∧
    firestoreSets (checkGmailAndProcess w).trace = [m] ∧
    (checkGmailAndProcess w).doc = some { lastHistoryId := some m } ∧
    responses (checkGmailAndProcess w).trace =
      [(200, "Initial run complete. History marker set.")] := by
  have hfalsy : truthy (lastHistoryIdOf w.doc) = false := by
    rw [habsent]
    rfl
  rw [pass_of_falsy w hread hfalsy]
  simp [bootstrap, hprofile, hwrite, passStart, consoleErrors, getProfileCalls,
    historyListCalls, dispatches, firestoreSets, responses]

/-- C1, amended, at `freshWorld`: the profile reports "100" and the store
holds "100" after the pass. -/
theorem C1_bootstrap_witness :
    consoleErrors (checkGmailAndProcess freshWorld).trace = [] ∧
    getProfileCalls (checkGmailAndProcess freshWorld).trace = [GMAIL_USER_ID] ∧
    historyListCalls (checkGmailAndProcess freshWorld).trace = [] ∧
    dispatches (checkGmailAndProcess freshWorld).trace = [] ∧
    firestoreSets (checkGmailAndProcess freshWorld).trace = ["100"] ∧
    (checkGmailAndProcess freshWorld).doc = some { lastHistoryId := some "100" } ∧
    responses (checkGmailAndProcess freshWorld).trace =
      [(200, "Initial run complete. History marker set.")] :=
  C1_bootstrap freshWorld "100" rfl rfl rfl rfl

/-- C2: when the pass starts with a stored cursor value `c` (the read
succeeds and the document holds `lastHistoryId = c`, a marker issued by the
mailbox and so not the empty string), it makes no `getProfile` call, it does
call the history-list operation, and every history-list call it makes has the
start marker equal to `c`, unchanged, and the event-kind filter equal to
exactly `["messageAdded"]`. -/
theorem C2_delta_request (w : World) (c : String)
    (hread : w.getFails = none) (hdoc : w.doc = some { lastHistoryId := some c })
    (hc : c ≠ "") :
    getProfileCalls (checkGmailAndProcess w).trace = [] ∧
    historyListCalls (checkGmailAndProcess w).trace ≠ [] ∧
    ∀ p ∈ historyListCalls (checkGmailAndProcess w).trace,
      p.startHistoryId = c ∧ p.historyTypes = ["messageAdded"] := by
  rw [pass_of_cursor w c hread hdoc hc, (fetchDelta_calls w c).1]
  refine ⟨(fetchDelta_calls w c).2.1, List.cons_ne_nil _ _, ?_⟩
  intro p hp
  rw [List.mem_singleton] at hp
  rw [hp]
  exact ⟨rfl, rfl⟩

/-- C2 at `syncedWorld`: the store holds "100". -/
theorem C2_delta_request_witness :
    getProfileCalls (checkGmailAndProcess syncedWorld).trace = [] ∧
    historyListCalls (checkGmailAndProcess syncedWorld).trace ≠ [] ∧
    ∀ p ∈ historyListCalls (checkGmailAndProcess syncedWorld).trace,
      p.startHistoryId = "100" ∧ p.historyTypes = ["messageAdded"] :=
  C2_delta_request syncedWorld "100" rfl rfl (by decide)

/-- C3, as stated, fails at `pagedWorld`: the first page is answered with the
continuation token "page2", the pass makes the one history-list call that
carries no token, never requests "page2" and answers 'Email check complete.'
on the first page alone. -/
theorem C3_counterexample :
    pagedWorld.historyList (historyParams "100") = .ok
      { history :=
          some [ { id := "101", messagesAdded := ["msg_1"] },
                 { id := "102", messagesAdded := ["msg_2"] } ]
        nextPageToken := some "page2"
        historyId := "105" } ∧
    historyListCalls (checkGmailAndProcess pagedWorld).trace = [historyParams "100"] ∧
    responses (checkGmailAndProcess pagedWorld).trace = [(200, "Email check complete.")] ∧
    ¬ FollowsPagination pagedWorld (checkGmailAndProcess pagedWorld).trace := by
  have hcalls :
      historyListCalls (checkGmailAndProcess pagedWorld).trace = [historyParams "100"] := rfl
  refine ⟨rfl, hcalls, rfl, ?_⟩
  intro h
  have hmem := h (historyParams "100") _ "page2" (by rw [hcalls]; simp) rfl rfl
  rw [hcalls] at hmem
  simp [historyParams] at hmem

/-- C3, amended: when the store is read and holds a non-empty cursor `c`, the
pass makes exactly one history-list call and no call of the pass carries a
page token, whatever continuation token the answer holds; and when that one
answer holds no history list the pass ends with 'No new emails.', again
whatever continuation token the answer holds. -/
theorem C3_single_page (w : World) (c : String)
    (hread : w.getFails = none) (hdoc : w.doc = some { lastHistoryId := some c })
    (hc : c ≠ "") :
    (historyListCalls (checkGmailAndProcess w).trace).length = 1 ∧
    (∀ p ∈ historyListCalls (checkGmailAndProcess w).trace, p.pageToken = none) ∧
    (∀ d, w.historyList (historyParams c) = .ok d → d.history = none →
      responses (checkGmailAndProcess w).trace = [(200, "No new emails.")]) := by
  rw [pass_of_cursor w c hread hdoc hc]
  refine ⟨?_, ?_, ?_⟩
  · rw [(fetchDelta_calls w c).1]
    rfl
  · rw [(fetchDelta_calls w c).1]
    intro p hp
    rw [List.mem_singleton] at hp
    rw [hp]
    rfl
  · intro d hlist hnone
    rw [fetchDelta_of_no_history w _ c d hlist hnone]
    simp [passStart, responses]

/-- C3, amended, at `pagedWorld`: one call, without a page token. -/
theorem C3_single_page_witness :
    (historyListCalls (checkGmailAndProcess pagedWorld).trace).length = 1 ∧
    (∀ p ∈ historyListCalls (checkGmailAndProcess pagedWorld).trace, p.pageToken = none) ∧
    (∀ d, pagedWorld.historyList (historyParams "100") = .ok d → d.history = none →
      responses (checkGmailAndProcess pagedWorld).trace = [(200, "No new emails.")]) :=
  C3_single_page pagedWorld "100" rfl rfl (by decide)

/-- C4, the code at the failing input `syncedWorld`: the store holds "100",
the history answer holds one record for the message `msg_1` and the latest
marker "105"; the pass hands no message to the downstream processor, writes
nothing, leaves "100" in the store and answers 200 'Email check complete.'. -/
theorem C4_code_at_failing_input :
    syncedWorld.historyList (historyParams "100") = .ok
      { history := some [{ id := "101", messagesAdded := ["msg_1"] }]
        nextPageToken := none
        historyId := "105" } ∧
    messageIds [{ id := "101", messagesAdded := ["msg_1"] }] = ["msg_1"] ∧
    dispatches (checkGmailAndProcess syncedWorld).trace = [] ∧
    firestoreSets (checkGmailAndProcess syncedWorld).trace = [] ∧
    (checkGmailAndProcess syncedWorld).doc = some { lastHistoryId := some "100" } ∧
    responses (checkGmailAndProcess syncedWorld).trace = [(200, "Email check complete.")] :=
  ⟨rfl, rfl, rfl, rfl, rfl, rfl⟩

/-- C5, as stated, fails at `quietWorld`: the store holds "100", the history
answer holds no record and the latest marker "105"; the pass answers
'No new emails.' and the store still holds "100", not "105". -/
theorem C5_counterexample :
    quietWorld.historyList (historyParams "100") =
      .ok { history := none, nextPageToken := none, historyId := "105" } ∧
    responses (checkGmailAndProcess quietWorld).trace = [(200, "No new emails.")] ∧
    (checkGmailAndProcess quietWorld).doc = some { lastHistoryId := some "100" } ∧
    (checkGmailAndProcess quietWorld).doc ≠ some { lastHistoryId := some "105" } := by
  refine ⟨rfl, rfl, rfl, ?_⟩
  decide

/-- C5, amended: when the store is read and holds a non-empty cursor `c` and
the history answer holds no history list, the pass answers once, with status
200 and the body 'No new emails.', writes nothing to the store and leaves the
stored `lastHistoryId` equal to `c`, whatever latest marker the answer
supplies. -/
theorem C5_empty_delta (w : World) (c : String) (d : HistoryData)
    (hread : w.getFails = none) (hdoc : w.doc = some { lastHistoryId := some c })
    (hc : c ≠ "") (hlist : w.historyList (historyParams c) = .ok d)
    (hnone : d.history = none) :
    responses (checkGmailAndProcess w).trace = [(200, "No new emails.")] ∧
    firestoreSets (checkGmailAndProcess w).trace = [] ∧
    (checkGmailAndProcess w).doc = some { lastHistoryId := some c } := by
  rw [pass_of_cursor w c hread hdoc hc, fetchDelta_of_no_history w _ c d hlist hnone]
  simp [passStart, responses, firestoreSets, hdoc]

/-- C5, amended, at `quietWorld`: the answer supplies "105", the store keeps
"100". -/
theorem C5_empty_delta_witness :
    responses (checkGmailAndProcess quietWorld).trace = [(200, "No new emails.")] ∧
    firestoreSets (checkGmailAndProcess quietWorld).trace = [] ∧
    (checkGmailAndProcess quietWorld).doc = some { lastHistoryId := some "100" } :=
  C5_empty_delta quietWorld "100"
    { history := none, nextPageToken := none, historyId := "105" }
    rfl rfl (by decide) rfl rfl

/-- C6, as stated, fails at `expiredWorld`: the store holds "100", the
history-list call is rejected as out of date (404) and the profile would
report "200"; the pass answers 500, never calls `getProfile` and leaves "100"
in the store. -/
theorem C6_counterexample :
    (∃ e, expiredWorld.historyList (historyParams "100") = .error e ∧ CursorExpired e) ∧
    expiredWorld.getProfile GMAIL_USER_ID = .ok "200" ∧
    responses (checkGmailAndProcess expiredWorld).trace =
      [(500, "An error occurred: Requested entity was not found.")] ∧
    getProfileCalls (checkGmailAndProcess expiredWorld).trace = [] ∧
    (checkGmailAndProcess expiredWorld).doc = some { lastHistoryId := some "100" } ∧
    (checkGmailAndProcess expiredWorld).doc ≠ some { lastHistoryId := some "200" } := by
  refine ⟨⟨_, rfl, rfl⟩, rfl, rfl, rfl, rfl, ?_⟩
  decide

/-- C6, amended: when the store is read and holds a non-empty cursor `c` that
the history-list call reports as expired with an error `e`, the pass fails as
for any other upstream error: it makes no `getProfile` call and no write,
leaves the stored `lastHistoryId` equal to `c`, records the error message
with `console.error` and answers once, with status 500 and the body
'An error occurred: ' followed by the message of `e`. -/
theorem C6_expired_cursor_fails_pass (w : World) (c : String) (e : JSError)
    (hread : w.getFails = none) (hdoc : w.doc = some { lastHistoryId := some c })
    (hc : c ≠ "") (hlist : w.historyList (historyParams c) = .error e)
    (_hexpired : CursorExpired e) :
    getProfileCalls (checkGmailAndProcess w).trace = [] ∧
    firestoreSets (checkGmailAndProcess w).trace = [] ∧
    (checkGmailAndProcess w).doc = some { lastHistoryId := some c } ∧
    consoleErrors (checkGmailAndProcess w).trace = [e.message] ∧
    responses (checkGmailAndProcess w).trace =
      [(500, "An error occurred: " ++ e.message)] := by
  rw [pass_of_cursor w c hread hdoc hc, fetchDelta_of_error w _ c e hlist]
  simp [catchBlock, passStart, getProfileCalls, firestoreSets, consoleErrors, responses, hdoc]

/-- C6, amended, at `expiredWorld`. -/
theorem C6_expired_cursor_fails_pass_witness :
    getProfileCalls (checkGmailAndProcess expiredWorld).trace = [] ∧
    firestoreSets (checkGmailAndProcess expiredWorld).trace = [] ∧
    (checkGmailAndProcess expiredWorld).doc = some { lastHistoryId := some "100" } ∧
    consoleErrors (checkGmailAndProcess expiredWorld).trace =
      ["Requested entity was not found."] ∧
    responses (checkGmailAndProcess expiredWorld).trace =
      [(500, "An error occurred: " ++ "Requested entity was not found.")] :=
  C6_expired_cursor_fails_pass expiredWorld "100"
    { message := "Requested entity was not found.", code := some 404 }
    rfl rfl (by decide) rfl rfl

/-- C8, as stated, fails at `offlineWorld`: `getProfile` is rejected with the
message "timeout" and the body of the response is
'An error occurred: timeout', not the message itself. -/
theorem C8_counterexample :
    offlineWorld.getProfile GMAIL_USER_ID = .error { message := "timeout", code := none } ∧
    responses (checkGmailAndProcess offlineWorld).trace =
      [(500, "An error occurred: timeout")] ∧
    responses (checkGmailAndProcess offlineWorld).trace ≠ [(500, "timeout")] := by
  refine ⟨rfl, rfl, ?_⟩
  decide

/-- C8, amended: when the store is read and the upstream call of the pass is
rejected with an error `e` (`getProfile` where the stored `lastHistoryId` is
missing or empty, the history-list call where it is a non-empty cursor), the
pass answers exactly once, with status 500 and the body
'An error occurred: ' followed by the message of `e`, writes nothing and
leaves the stored document as it was. -/
theorem C8_upstream_failure (w : World) (e : JSError) (hread : w.getFails = none)
    (hfail :
      (truthy (lastHistoryIdOf w.doc) = false ∧ w.getProfile GMAIL_USER_ID = .error e) ∨
      (∃ c, w.doc = some { lastHistoryId := some c } ∧ c ≠ "" ∧
        w.historyList (historyParams c) = .error e)) :
    responses (checkGmailAndProcess w).trace =
      [(500, "An error occurred: " ++ e.message)] ∧
    firestoreSets (checkGmailAndProcess w).trace = [] ∧
    (checkGmailAndProcess w).doc = w.doc := by
  rcases hfail with ⟨hfalsy, hprofile⟩ | ⟨c, hdoc, hc, hlist⟩
  · rw [pass_of_falsy w hread hfalsy, bootstrap_of_profile_error w _ e hprofile]
    simp [catchBlock, passStart, responses, firestoreSets]
  · rw [pass_of_cursor w c hread hdoc hc, fetchDelta_of_error w _ c e hlist]
    simp [catchBlock, passStart, responses, firestoreSets]

/-- C8, amended, at `offlineWorld` (no document, `getProfile` times out). -/
theorem C8_upstream_failure_witness :
    responses (checkGmailAndProcess offlineWorld).trace =
      [(500, "An error occurred: " ++ "timeout")] ∧
    firestoreSets (checkGmailAndProcess offlineWorld).trace = [] ∧
    (checkGmailAndProcess offlineWorld).doc = offlineWorld.doc :=
  C8_upstream_failure offlineWorld { message := "timeout", code := none } rfl
    (Or.inl ⟨rfl, rfl⟩)

/-! ## Several passes -/

/-- C9, the code at the failing input `syncedWorld`: the store holds "100" and
the mailbox, unchanged between the passes, answers the start marker "100"
with one record and the latest marker "105". Each of three passes in a row
answers 200 'Email check complete.' and leaves "100" in the store; none
answers 'No new emails.'. -/
theorem C9_code_at_failing_input :
    (runPasses syncedWorld 3).map (fun o => (responses o.trace, o.doc)) =
      [ ([(200, "Email check complete.")], some { lastHistoryId := some "100" }),
        ([(200, "Email check complete.")], some { lastHistoryId := some "100" }),
        ([(200, "Email check complete.")], some { lastHistoryId := some "100" }) ] :=
  rfl

/-- Steady state after a pass that found no history: when the store is read
and holds a non-empty cursor `c` that the mailbox answers with no history
list, every one of `n` passes in a row answers 200 'No new emails.', writes
nothing and leaves the stored `lastHistoryId` equal to `c`. -/
theorem steady_state_of_empty_delta (w : World) (c : String) (d : HistoryData)
    (hread : w.getFails = none) (hdoc : w.doc = some { lastHistoryId := some c })
    (hc : c ≠ "") (hlist : w.historyList (historyParams c) = .ok d)
    (hnone : d.history = none) (n : Nat) :
    (runPasses w n).length = n ∧
    ∀ o ∈ runPasses w n,
      responses o.trace = [(200, "No new emails.")] ∧
      firestoreSets o.trace = [] ∧
      o.doc = some { lastHistoryId := some c } := by
  constructor
  · clear hread hdoc hlist
    induction n generalizing w with
    | zero => rfl
    | succ n ih => simp [runPasses, ih]
  · intro o ho
    obtain ⟨htrace, hstored⟩ := runPasses_quiet w c d hread hdoc hc hlist hnone n o ho
    rw [htrace]
    exact ⟨by simp [passStart, responses], by simp [passStart, firestoreSets], hstored⟩

/-- Four passes of `quietWorld`: each answers 'No new emails.' and the store
keeps "100". -/
theorem steady_state_of_empty_delta_witness :
    (runPasses quietWorld 4).length = 4 ∧
    ∀ o ∈ runPasses quietWorld 4,
      responses o.trace = [(200, "No new emails.")] ∧
      firestoreSets o.trace = [] ∧
      o.doc = some { lastHistoryId := some "100" } :=
  steady_state_of_empty_delta quietWorld "100"
    { history := none, nextPageToken := none, historyId := "105" }
    rfl rfl (by decide) rfl rfl 4

/-- Steady state after a bootstrap: when the config document does not exist,
the store can be read and written, `getProfile` answers a non-empty marker
`m` and the mailbox answers the start marker `m` with no history list, the
first of `n + 1` passes in a row is the bootstrap and every later pass
answers 200 'No new emails.', writes nothing and leaves the stored
`lastHistoryId` equal to `m`. -/
theorem steady_state_after_bootstrap (w : World) (m : String) (d : HistoryData)
    (habsent : w.doc = none) (hread : w.getFails = none)
    (hprofile : w.getProfile GMAIL_USER_ID = .ok m) (hwrite : w.setFails = none)
    (hm : m ≠ "") (hlist : w.historyList (historyParams m) = .ok d)
    (hnone : d.history = none) (n : Nat) :
    (runPasses w (n + 1)).head? = some (checkGmailAndProcess w) ∧
    responses (checkGmailAndProcess w).trace =
      [(200, "Initial run complete. History marker set.")] ∧
    ∀ o ∈ (runPasses w (n + 1)).tail,
      responses o.trace = [(200, "No new emails.")] ∧
      firestoreSets o.trace = [] ∧
      o.doc = some { lastHistoryId := some m } := by
  have hfalsy : truthy (lastHistoryIdOf w.doc) = false := by
    rw [habsent]
    rfl
  have hpass :
      checkGmailAndProcess w =
        { trace := passStart ++
            [ .consoleLog "No lastHistoryId found. Setting initial history marker.",
              .getProfile GMAIL_USER_ID,
              .firestoreSet CONFIG_COLLECTION CONFIG_DOC_ID m,
              .consoleLog ("Initial historyId set to " ++ m ++ "."),
              .respond 200 "Initial run complete. History marker set." ]
          doc := some { lastHistoryId := some m } } := by
    rw [pass_of_falsy w hread hfalsy]
    simp [bootstrap, hprofile, hwrite]
  refine ⟨rfl, ?_, ?_⟩
  · rw [hpass]
    simp [passStart, responses]
  · intro o ho
    simp only [runPasses, List.tail_cons] at ho
    obtain ⟨htrace, hstored⟩ :=
      runPasses_quiet (nextWorld w (checkGmailAndProcess w)) m d hread
        (by rw [hpass]; rfl) hm hlist hnone n o ho
    rw [htrace]
    exact ⟨by simp [passStart, responses], by simp [passStart, firestoreSets], hstored⟩

/-- Three passes of `caughtUpWorld`: the bootstrap stores "105", the two later
passes answer 'No new emails.' and keep "105". -/
theorem steady_state_after_bootstrap_witness :
    (runPasses caughtUpWorld (2 + 1)).head? = some (checkGmailAndProcess caughtUpWorld) ∧
    responses (checkGmailAndProcess caughtUpWorld).trace =
      [(200, "Initial run complete. History marker set.")] ∧
    ∀ o ∈ (runPasses caughtUpWorld (2 + 1)).tail,
      responses o.trace = [(200, "No new emails.")] ∧
      firestoreSets o.trace = [] ∧
      o.doc = some { lastHistoryId := some "105" } :=
  steady_state_after_bootstrap caughtUpWorld "105"
    { history := none, nextPageToken := none, historyId := "105" }
    rfl rfl rfl rfl (by decide) rfl rfl 2

end ChatBot
